import Mathlib

/-! sample_exercises.c: a verification development

Shallow embedding of `frontend/demo/sample_exercises.c`.

Conventions of the embedding:
* `double` and `fann_type` values are exact rationals (`ℚ`);
* a C array is a map from indices to values (`Nat → α`), a store `a[i] = v` is
  `Function.update a i v`; a declared but uninitialised array is a parameter;
* `for (int i = lo; i < hi; i++) body` is `forLoop body (hi - lo) lo`;
* the C library generator behind `rand()`/`srand()` is an explicit state of
  type `σ`, threaded through every function that can reach it;
* the FANN library is not part of the repository: its entry points are the
  fields of a parameter `Fann σ Net`;
* `printf` and `fann_destroy` calls are recorded, in order, as a list of events.
-/

namespace SampleExercises

/-! ## Data model -/

/-- Particle structure for swarm algorithms (`typedef struct { ... } Particle`). -/
structure Particle where
  position : ℚ × ℚ
  velocity : ℚ × ℚ
  best_position : ℚ × ℚ
  fitness : ℚ
  best_fitness : ℚ
  id : Int

/-- The C library as the exercises use it. The generator of `<stdlib.h>`:
`srand seed` installs a state, `rand` returns the next value together with
the next state, `RAND_MAX` is its largest value. `sqrt` is the function of
`<math.h>` on the modelled `double`s. -/
structure Libc (σ : Type) where
  RAND_MAX : Nat
  srand : Nat → σ
  rand : σ → Nat × σ
  sqrt : ℚ → ℚ

/-- An argument passed to `printf` after the format string. -/
inductive Arg where
  | int (v : Int)
  | dbl (v : ℚ)
  deriving DecidableEq

/-- An observable action: a `printf` call (format string and arguments) or a
`fann_destroy` call. -/
inductive Event (Net : Type) where
  | printf (fmt : String) (args : List Arg)
  | fann_destroy (ann : Net)
  deriving DecidableEq

/-- The entry points of FANN used by the exercises. `fann_create_standard`
and `fann_randomize_weights` may draw from the C library generator. A NULL
result of `fann_create_standard` is `none`. -/
structure Fann (σ Net : Type) where
  fann_create_standard : Nat → List Nat → σ → Option Net × σ
  fann_get_num_input : Net → Nat
  fann_get_num_output : Net → Nat
  fann_get_total_connections : Net → Nat
  fann_set_activation_function_hidden : Net → String → Net
  fann_set_activation_function_output : Net → String → Net
  fann_run : Net → (Nat → ℚ) → (Nat → ℚ) × Net
  fann_randomize_weights : Net → ℚ → ℚ → σ → Net × σ

/-- The loop `for (int i = lo; i < lo + n; i++) st = body i st`. -/
def forLoop {α : Type} (body : Nat → α → α) : Nat → Nat → α → α
  | 0, _, st => st
  | n + 1, i, st => forLoop body n (i + 1) (body i st)

/-! ## Exercise 2: sphere function -/

/-- Sphere function: `return x*x + y*y;`. -/
def sphere_function (x y : ℚ) : ℚ := x * x + y * y

/-- The contents of an array initialised from a brace list; elements past
the list are zero-initialised. -/
def arrayOf {α : Type} (d : α) (l : List α) : Nat → α := fun i => l.getD i d

section Exercises

variable {σ Net : Type}

/-! ## Exercise 1: neural networks with FANN -/

/-- The table `fann_type inputs[4][2] = {{0,0}, {0,1}, {1,0}, {1,1}}` of
exercise 1c. -/
def exercise_1c_xor_problem.inputs : Nat → Nat → ℚ :=
  arrayOf (arrayOf 0 []) [arrayOf 0 [0, 0], arrayOf 0 [0, 1], arrayOf 0 [1, 0], arrayOf 0 [1, 1]]

/-- The table `double expected[4] = {0, 1, 1, 0}` of exercise 1c. -/
def exercise_1c_xor_problem.expected : Nat → ℚ := arrayOf 0 [0, 1, 1, 0]

/-- Exercise 1c: run the untrained XOR network on the four input rows. -/
def exercise_1c_xor_problem (F : Fann σ Net) (g : σ) : List (Event Net) × σ :=
  let out : List (Event Net) :=
    [.printf "\n🎯 Exercise 1c: XOR Problem\n" [],
     .printf "===========================\n" []]
  match F.fann_create_standard 3 [2, 3, 1] g with
  | (some xor_net, g) =>
    let out := out ++
      [.printf "✅ XOR Network Architecture:\n" [],
       .printf "   2 inputs → 3 hidden → 1 output\n" []]
    let xor_net := F.fann_set_activation_function_hidden xor_net "FANN_SIGMOID_SYMMETRIC"
    let xor_net := F.fann_set_activation_function_output xor_net "FANN_SIGMOID_SYMMETRIC"
    let inputs := exercise_1c_xor_problem.inputs
    let expected := exercise_1c_xor_problem.expected
    let out := out ++ [.printf "\n📊 XOR Truth Table (Untrained Network):\n" []]
    let (xor_net, out) :=
      forLoop (fun i (st : Net × List (Event Net)) =>
        let (output, xor_net) := F.fann_run st.1 (inputs i)
        (xor_net, st.2 ++
          [.printf "   [%.0f,%.0f] → %.3f (expected: %.0f)\n"
            [.dbl (inputs i 0), .dbl (inputs i 1), .dbl (output 0), .dbl (expected i)]]))
        (4 - 0) 0 (xor_net, out)
    (out ++
      [.printf "\n📝 Note: Training requires external data files\n" [],
       .printf "    This demonstrates network structure and testing\n" [],
       .fann_destroy xor_net], g)
  | (none, g) => (out, g)

/-! ## Exercise 2: swarm intelligence basics -/

/-- The state of the initialisation loop of exercise 2a: the swarm, the
generator and the events so far. -/
structure InitState (σ Net : Type) where
  swarm : Nat → Particle
  gen : σ
  out : List (Event Net)

/-- One iteration of `for (int i = 0; i < SWARM_SIZE; i++)` in exercise 2a
(source lines 157-181). -/
def exercise_2a_particle_init.init_body (L : Libc σ) (i : Nat) (st : InitState σ Net) :
    InitState σ Net :=
  let p := st.swarm i
  let p := { p with id := (i : Int) }
  let (r, g) := L.rand st.gen
  let p := { p with position := ((r : ℚ) / (L.RAND_MAX : ℚ) * 10.0 - 5.0, p.position.2) }
  let (r, g) := L.rand g
  let p := { p with position := (p.position.1, (r : ℚ) / (L.RAND_MAX : ℚ) * 10.0 - 5.0) }
  let (r, g) := L.rand g
  let p := { p with velocity := ((r : ℚ) / (L.RAND_MAX : ℚ) * 2.0 - 1.0, p.velocity.2) }
  let (r, g) := L.rand g
  let p := { p with velocity := (p.velocity.1, (r : ℚ) / (L.RAND_MAX : ℚ) * 2.0 - 1.0) }
  let p := { p with fitness := sphere_function p.position.1 p.position.2 }
  let p := { p with best_position := (p.position.1, p.best_position.2) }
  let p := { p with best_position := (p.best_position.1, p.position.2) }
  let p := { p with best_fitness := p.fitness }
  { swarm := Function.update st.swarm i p
    gen := g
    out := st.out ++
      [.printf "   Particle %d: pos(%.2f,%.2f) vel(%.2f,%.2f) fitness=%.3f\n"
        [.int p.id, .dbl p.position.1, .dbl p.position.2,
         .dbl p.velocity.1, .dbl p.velocity.2, .dbl p.fitness]] }

/-- The loop "Find global best" of exercise 2a (source lines 184-189). -/
def exercise_2a_particle_init.find_global_best (SWARM_SIZE : Nat) (swarm : Nat → Particle) :
    Nat :=
  forLoop (fun i global_best_idx =>
    if (swarm i).fitness < (swarm global_best_idx).fitness then i else global_best_idx)
    (SWARM_SIZE - 1) 1 0

/-- The swarm, generator and events after `srand(time(NULL))` and the
initialisation loop of exercise 2a. `time_NULL` is the value of `time(NULL)`
as `srand` receives it, `swarm` the indeterminate initial content of the
local array. -/
def exercise_2a_particle_init.initialised (L : Libc σ) (time_NULL : Nat)
    (swarm : Nat → Particle) (out : List (Event Net)) : InitState σ Net :=
  let SWARM_SIZE := 6
  forLoop (exercise_2a_particle_init.init_body L) (SWARM_SIZE - 0) 0
    { swarm := swarm
      gen := L.srand time_NULL
      out := out ++ [.printf "Initializing %d particles:\n" [.int (SWARM_SIZE : Nat)]] }

/-- Exercise 2a: initialise a swarm of six particles and report the global
best. The generator state at entry is discarded by `srand(time(NULL))`. -/
def exercise_2a_particle_init (L : Libc σ) (time_NULL : Nat) (swarm : Nat → Particle)
    (_g : σ) : List (Event Net) × σ :=
  let out : List (Event Net) :=
    [.printf "\n🐛 Exercise 2a: Particle Swarm Initialization\n" [],
     .printf "==============================================\n" []]
  let SWARM_SIZE := 6
  let st := exercise_2a_particle_init.initialised L time_NULL swarm out
  let swarm := st.swarm
  let global_best_idx := exercise_2a_particle_init.find_global_best SWARM_SIZE swarm
  (st.out ++
    [.printf "\n🏆 Global Best: Particle %d\n" [.int (global_best_idx : Nat)],
     .printf "   Position: (%.3f, %.3f)\n"
       [.dbl (swarm global_best_idx).position.1, .dbl (swarm global_best_idx).position.2],
     .printf "   Fitness: %.3f\n" [.dbl (swarm global_best_idx).fitness]], st.gen)

/-- One iteration of the initialisation loop of exercise 2c (source lines
245-250), on the swarm and the generator. -/
def exercise_2c_swarm_behavior.init_body (L : Libc σ) (i : Nat)
    (st : (Nat → Particle) × σ) : (Nat → Particle) × σ :=
  let p := st.1 i
  let p := { p with id := (i : Int) }
  let (r, g) := L.rand st.2
  let p := { p with position := ((r : ℚ) / (L.RAND_MAX : ℚ) * 6.0 - 3.0, p.position.2) }
  let (r, g) := L.rand g
  let p := { p with position := (p.position.1, (r : ℚ) / (L.RAND_MAX : ℚ) * 6.0 - 3.0) }
  let p := { p with fitness := sphere_function p.position.1 p.position.2 }
  (Function.update st.1 i p, g)

/-- The swarm and generator after `srand(42)` and the initialisation loop of
exercise 2c; `swarm` is the indeterminate initial content of the array. -/
def exercise_2c_swarm_behavior.initialised (L : Libc σ) (swarm : Nat → Particle) :
    (Nat → Particle) × σ :=
  let SWARM_SIZE := 8
  forLoop (exercise_2c_swarm_behavior.init_body L) (SWARM_SIZE - 0) 0 (swarm, L.srand 42)

/-- The accumulators of the statistics loop of exercise 2c. -/
structure Stats where
  center_x : ℚ
  center_y : ℚ
  avg_fitness : ℚ
  min_fitness : ℚ
  max_fitness : ℚ

/-- One iteration of the statistics loop of exercise 2c (source lines
258-265). -/
def exercise_2c_swarm_behavior.stats_body (swarm : Nat → Particle) (i : Nat) (s : Stats) :
    Stats :=
  let s := { s with center_x := s.center_x + (swarm i).position.1 }
  let s := { s with center_y := s.center_y + (swarm i).position.2 }
  let s := { s with avg_fitness := s.avg_fitness + (swarm i).fitness }
  let s := if (swarm i).fitness < s.min_fitness then
    { s with min_fitness := (swarm i).fitness } else s
  let s := if (swarm i).fitness > s.max_fitness then
    { s with max_fitness := (swarm i).fitness } else s
  s

/-- The accumulators when the statistics loop of exercise 2c ends (source
lines 253-265), before the divisions by `SWARM_SIZE`. -/
def exercise_2c_swarm_behavior.stats_loop (SWARM_SIZE : Nat) (swarm : Nat → Particle) : Stats :=
  forLoop (exercise_2c_swarm_behavior.stats_body swarm) (SWARM_SIZE - 0) 0
    { center_x := 0
      center_y := 0
      avg_fitness := 0
      min_fitness := (swarm 0).fitness
      max_fitness := (swarm 0).fitness }

/-- The swarm statistics of exercise 2c as printed (source lines 253-269). -/
def exercise_2c_swarm_behavior.statistics (SWARM_SIZE : Nat) (swarm : Nat → Particle) : Stats :=
  let s := exercise_2c_swarm_behavior.stats_loop SWARM_SIZE swarm
  let s := { s with center_x := s.center_x / (SWARM_SIZE : ℚ) }
  let s := { s with center_y := s.center_y / (SWARM_SIZE : ℚ) }
  let s := { s with avg_fitness := s.avg_fitness / (SWARM_SIZE : ℚ) }
  s

/-- The diversity of exercise 2c: average distance from the centre (source
lines 272-278). -/
def exercise_2c_swarm_behavior.diversity (L : Libc σ) (SWARM_SIZE : Nat)
    (swarm : Nat → Particle) (center_x center_y : ℚ) : ℚ :=
  let diversity :=
    forLoop (fun i (diversity : ℚ) =>
      let dx := (swarm i).position.1 - center_x
      let dy := (swarm i).position.2 - center_y
      diversity + L.sqrt (dx * dx + dy * dy)) (SWARM_SIZE - 0) 0 0
  diversity / (SWARM_SIZE : ℚ)

/-- Exercise 2c: initialise eight particles from `srand(42)` and print the
swarm statistics. The generator state at entry is discarded by `srand(42)`. -/
def exercise_2c_swarm_behavior (L : Libc σ) (swarm : Nat → Particle) (_g : σ) :
    List (Event Net) × σ :=
  let SWARM_SIZE := 8
  let st := exercise_2c_swarm_behavior.initialised L swarm
  let swarm := st.1
  let s := exercise_2c_swarm_behavior.statistics SWARM_SIZE swarm
  let diversity := exercise_2c_swarm_behavior.diversity L SWARM_SIZE swarm s.center_x s.center_y
  ([.printf "\n🐝 Exercise 2c: Swarm Behavior Analysis\n" [],
    .printf "=======================================\n" [],
    .printf "📊 Swarm Statistics:\n" [],
    .printf "   Size: %d particles\n" [.int (SWARM_SIZE : Nat)],
    .printf "   Center: (%.3f, %.3f)\n" [.dbl s.center_x, .dbl s.center_y],
    .printf "   Average Fitness: %.3f\n" [.dbl s.avg_fitness],
    .printf "   Best Fitness: %.3f\n" [.dbl s.min_fitness],
    .printf "   Worst Fitness: %.3f\n" [.dbl s.max_fitness],
    .printf "   Diversity: %.3f\n" [.dbl diversity],
    .printf "   Fitness Range: %.3f\n" [.dbl (s.max_fitness - s.min_fitness)],
    .printf "\n🎯 Swarm Intelligence Principles:\n" [],
    .printf "   • Decentralized control\n" [],
    .printf "   • Local interactions → Global behavior\n" [],
    .printf "   • Self-organization\n" [],
    .printf "   • Adaptive exploration\n" []], st.2)

/-! ## Exercise 3: neuroevolution concepts -/

/-- The state of the population loop of exercise 3a. -/
structure PopState (σ Net : Type) where
  population : Nat → Option Net
  fitness_scores : Nat → ℚ
  gen : σ
  out : List (Event Net)

/-- One iteration of the loop creating the population in exercise 3a (source
lines 315-328). -/
def exercise_3a_neuroevolution_setup.create_body (F : Fann σ Net) (L : Libc σ) (i : Nat)
    (st : PopState σ Net) : PopState σ Net :=
  match F.fann_create_standard 3 [3, 4, 1] st.gen with
  | (some ann, g) =>
    let (ann, g) := F.fann_randomize_weights ann (-2.0 + (i : ℚ) * 0.5) (2.0 - (i : ℚ) * 0.5) g
    let (r, g) := L.rand g
    let fitness_scores :=
      Function.update st.fitness_scores i ((r : ℚ) / (L.RAND_MAX : ℚ) * 100.0)
    { population := Function.update st.population i (some ann)
      fitness_scores := fitness_scores
      gen := g
      out := st.out ++
        [.printf "   Network %d: %d connections, fitness=%.2f\n"
          [.int (i : Nat), .int (F.fann_get_total_connections ann), .dbl (fitness_scores i)]] }
  | (none, g) =>
    { st with population := Function.update st.population i none, gen := g }

/-- The population, fitness scores, generator and events after the creation
loop of exercise 3a, entered with generator `g`; `population` and
`fitness_scores` are the indeterminate initial contents of the arrays. -/
def exercise_3a_neuroevolution_setup.created (F : Fann σ Net) (L : Libc σ)
    (population : Nat → Option Net) (fitness_scores : Nat → ℚ) (g : σ) : PopState σ Net :=
  let POPULATION_SIZE := 4
  forLoop (exercise_3a_neuroevolution_setup.create_body F L) (POPULATION_SIZE - 0) 0
    { population := population
      fitness_scores := fitness_scores
      gen := g
      out :=
        [.printf "\n🧬 Exercise 3a: Neuroevolution Setup\n" [],
         .printf "====================================\n" [],
         .printf "Creating neural network population:\n" []] }

/-- The loop "Find best network" of exercise 3a (source lines 331-336). -/
def exercise_3a_neuroevolution_setup.find_best (POPULATION_SIZE : Nat)
    (fitness_scores : Nat → ℚ) : Nat :=
  forLoop (fun i best_idx =>
    if fitness_scores i > fitness_scores best_idx then i else best_idx)
    (POPULATION_SIZE - 1) 1 0

/-- Exercise 3a: create four networks, draw a fitness score for each from
`rand()`, report the best and destroy the networks. -/
def exercise_3a_neuroevolution_setup (F : Fann σ Net) (L : Libc σ)
    (population : Nat → Option Net) (fitness_scores : Nat → ℚ) (g : σ) :
    List (Event Net) × σ :=
  let POPULATION_SIZE := 4
  let st := exercise_3a_neuroevolution_setup.created F L population fitness_scores g
  let population := st.population
  let fitness_scores := st.fitness_scores
  let best_idx := exercise_3a_neuroevolution_setup.find_best POPULATION_SIZE fitness_scores
  let out := st.out ++
    [.printf "\n🏆 Best Network: %d (fitness=%.2f)\n"
      [.int (best_idx : Nat), .dbl (fitness_scores best_idx)],
     .printf "\n🔄 Evolution Process:\n" [],
     .printf "   1. Initialize population\n" [],
     .printf "   2. Evaluate fitness\n" [],
     .printf "   3. Select parents\n" [],
     .printf "   4. Crossover & mutation\n" [],
     .printf "   5. Replace population\n" [],
     .printf "   6. Repeat until convergence\n" []]
  let out :=
    forLoop (fun i (out : List (Event Net)) =>
      match population i with
      | some ann => out ++ [.fann_destroy ann]
      | none => out) (POPULATION_SIZE - 0) 0 out
  (out, st.gen)

/-- The regression fitness of exercise 3b: `1.0 / (1.0 + mse)` (source line
387, printed as a formula on line 373). -/
def exercise_3b_fitness_functions.regr_fitness (mse : ℚ) : ℚ := 1.0 / (1.0 + mse)

/-- Exercise 3b: print the fitness function types and three sample values. -/
def exercise_3b_fitness_functions (g : σ) : List (Event Net) × σ :=
  let accuracy : ℚ := 0.87
  let mse : ℚ := 0.03
  let speed_score : ℚ := 0.92
  let class_fitness := accuracy * 100
  let regr_fitness := exercise_3b_fitness_functions.regr_fitness mse
  let multi_fitness := 0.5 * accuracy + 0.3 * speed_score + 0.2 * (1.0 - mse)
  ([.printf "\n🎯 Exercise 3b: Fitness Function Design\n" [],
    .printf "=======================================\n" [],
    .printf "📚 Common Fitness Function Types:\n\n" [],
    .printf "1. Classification Accuracy:\n" [],
    .printf "   fitness = (correct_predictions / total_predictions) * 100\n" [],
    .printf "   Example: 85%% accuracy = 85.0 fitness\n\n" [],
    .printf "2. Mean Squared Error (lower is better):\n" [],
    .printf "   fitness = 1.0 / (1.0 + MSE)\n" [],
    .printf "   Converts minimization to maximization problem\n\n" [],
    .printf "3. Multi-Objective (weighted sum):\n" [],
    .printf "   fitness = w1*accuracy + w2*speed + w3*size_penalty\n" [],
    .printf "   Balance multiple competing objectives\n\n" [],
    .printf "📊 Sample Fitness Calculations:\n" [],
    .printf "   Classification: %.2f\n" [.dbl class_fitness],
    .printf "   Regression: %.3f\n" [.dbl regr_fitness],
    .printf "   Multi-objective: %.3f\n" [.dbl multi_fitness],
    .printf "\n💡 Design Tips:\n" [],
    .printf "   • Higher values = better fitness\n" [],
    .printf "   • Scale appropriately (0-100 or 0-1)\n" [],
    .printf "   • Consider problem constraints\n" [],
    .printf "   • Test with known solutions\n" []], g)

/-! ## Main exercise runner -/

end Exercises

/-! ## security_examples.c -/

/-- What the sandbox does with a submitted source: it rejects it, or it
executes it, and then some functions of the source have run. -/
inductive Outcome where
  | rejected
  | executed (functions_run : List String)
  deriving DecidableEq

/-- The functions of the source that have run. -/
def Outcome.functions_run : Outcome → List String
  | .rejected => []
  | .executed fs => fs

/-- The generator of the sample implementation in the C standard, on a
32-bit state: `next = next * 1103515245 + 12345; return (next/65536) % 32768;`
with `RAND_MAX = 32767`; `sqrt` rounds down to an integer. -/
def sampleLibc : Libc Nat where
  RAND_MAX := 32767
  srand := fun seed => seed
  rand := fun next =>
    let next := (next * 1103515245 + 12345) % 2 ^ 32
    (next / 65536 % 32768, next)
  sqrt := fun x => ((Nat.sqrt x.floor.toNat : Nat) : ℚ)

/-- A stand-in for FANN that never fails and never touches the generator: a
network is the list of its layer sizes. -/
def sampleFann : Fann Nat (List Nat) where
  fann_create_standard := fun _ layers g => (some layers, g)
  fann_get_num_input := fun ann => ann.headD 0
  fann_get_num_output := fun ann => ann.getLastD 0
  fann_get_total_connections := fun ann =>
    ((ann.zip ann.tail).map (fun l => (l.1 + 1) * l.2)).sum
  fann_set_activation_function_hidden := fun ann _ => ann
  fann_set_activation_function_output := fun ann _ => ann
  fann_run := fun ann _ => (fun _ => 0, ann)
  fann_randomize_weights := fun ann _ _ g => (ann, g)

/-- A stand-in for FANN in which every `fann_create_standard` returns NULL. -/
def failingFann : Fann Nat (List Nat) :=
  { sampleFann with fann_create_standard := fun _ _ g => (none, g) }

/-- A particle with every field zero. -/
def zeroParticle : Particle where
  position := (0, 0)
  velocity := (0, 0)
  best_position := (0, 0)
  fitness := 0
  best_fitness := 0
  id := 0

/-! ## Predicates of the specification -/

/-- The ranges the comments of exercise 2a announce for a particle. -/
def InRange2a (p : Particle) : Prop :=
  (-5 ≤ p.position.1 ∧ p.position.1 ≤ 5) ∧ (-5 ≤ p.position.2 ∧ p.position.2 ≤ 5) ∧
  (-1 ≤ p.velocity.1 ∧ p.velocity.1 ≤ 1) ∧ (-1 ≤ p.velocity.2 ∧ p.velocity.2 ≤ 1) ∧
  (0 ≤ p.fitness ∧ p.fitness ≤ 50)

/-- What the initialisation loop of exercise 2a establishes for particle `i`. -/
def Initialised2a (i : Nat) (p : Particle) : Prop :=
  p.id = (i : Int) ∧ p.fitness = sphere_function p.position.1 p.position.2 ∧
  p.best_position.1 = p.position.1 ∧ p.best_position.2 = p.position.2 ∧
  p.best_fitness = p.fitness

/-- Index `b` is the first index below `k` at which `f` is least: `b < k`,
`f b ≤ f j` for every `j < k`, and `f b < f j` for every `j < b`. -/
def FirstArgMin (f : Nat → ℚ) (k b : Nat) : Prop :=
  b < k ∧ (∀ j, j < k → f b ≤ f j) ∧ (∀ j, j < b → f b < f j)

/-- Two particles agree in the fields exercise 2c assigns: id, position and
fitness. -/
def SameAssigned2c (p q : Particle) : Prop :=
  p.position = q.position ∧ p.fitness = q.fitness ∧ p.id = q.id

/-! ## Array indices

The arrays of the embedding are total maps, so an index out of range would
go unnoticed. The definitions below run the loops of the exercises again and
record, next to the state, the value of every index expression used on the
array in question. -/

section Indices

variable {σ Net : Type}

end Indices


/-! ## Theorems -/
/-! ### Loops -/

theorem forLoop_invariant {α : Type} (body : Nat → α → α) (Inv : Nat → α → Prop) :
    ∀ (n i : Nat) (st : α), Inv i st →
      (∀ j s, i ≤ j → j < i + n → Inv j s → Inv (j + 1) (body j s)) →
      Inv (i + n) (forLoop body n i st) := by
  intro n
  induction n with
  | zero => intro i st h _; simpa [forLoop] using h
  | succ n ih =>
    intro i st h hstep
    have h1 : Inv (i + 1) (body i st) := hstep i st le_rfl (by omega) h
    have := ih (i + 1) (body i st) h1
      (fun j s hj hlt hinv => hstep j s (by omega) (by omega) hinv)
    simpa [forLoop, Nat.add_assoc, Nat.add_comm 1 n] using this

theorem forLoop_congr {α : Type} (f g : Nat → α → α) :
    ∀ (n i : Nat) (st : α), (∀ j s, i ≤ j → j < i + n → f j s = g j s) →
      forLoop f n i st = forLoop g n i st := by
  intro n
  induction n with
  | zero => intro i st _; rfl
  | succ n ih =>
    intro i st h
    simp only [forLoop]
    rw [h i st le_rfl (by omega)]
    exact ih (i + 1) (g i st) (fun j s hj hlt => h j s (by omega) (by omega))

theorem forLoop_rel {α β : Type} (R : Nat → α → β → Prop) (f : Nat → α → α)
    (g : Nat → β → β) :
    ∀ (n i : Nat) (a : α) (b : β), R i a b →
      (∀ j a b, i ≤ j → j < i + n → R j a b → R (j + 1) (f j a) (g j b)) →
      R (i + n) (forLoop f n i a) (forLoop g n i b) := by
  intro n
  induction n with
  | zero => intro i a b h _; simpa [forLoop] using h
  | succ n ih =>
    intro i a b h hstep
    have h1 := hstep i a b le_rfl (by omega) h
    have := ih (i + 1) (f i a) (g i b) h1
      (fun j a b hj hlt hinv => hstep j a b (by omega) (by omega) hinv)
    simpa [forLoop, Nat.add_assoc, Nat.add_comm 1 n] using this

/-- A loop whose iteration `i` stores only to element `i` of an array leaves
in every element of its range what its own iteration stored. -/
theorem forLoop_array_prop {α β : Type} (arr : α → Nat → β) (body : Nat → α → α)
    (hframe : ∀ i st j, j ≠ i → arr (body i st) j = arr st j)
    (P : Nat → β → Prop) (hP : ∀ i st, P i (arr (body i st) i))
    (n lo : Nat) (st : α) (j : Nat) (h1 : lo ≤ j) (h2 : j < lo + n) :
    P j (arr (forLoop body n lo st) j) := by
  have key := forLoop_invariant body (fun k s => ∀ j, lo ≤ j → j < k → P j (arr s j)) n lo st
    (fun j _ hj => by omega)
    (fun k s _ _ hinv j hj hjk => by
      by_cases hjk2 : j = k
      · subst hjk2; exact hP j s
      · rw [hframe k s j hjk2]; exact hinv j hj (by omega))
  exact key j h1 h2


/-- C1: `sphere_function x y` equals `x*x + y*y`; it is never negative, and it
is zero exactly at the origin, so its global minimum is `0` at `(0,0)`. -/
theorem sphere_function_spec (x y : ℚ) :
    sphere_function x y = x * x + y * y ∧ 0 ≤ sphere_function x y ∧
      (sphere_function x y = 0 ↔ x = 0 ∧ y = 0) := by
  refine ⟨rfl, ?_, ?_⟩
  · unfold sphere_function; nlinarith [mul_self_nonneg x, mul_self_nonneg y]
  · unfold sphere_function
    constructor
    · intro h
      have hx := mul_self_nonneg x
      have hy := mul_self_nonneg y
      constructor
      · exact mul_self_eq_zero.mp (by linarith)
      · exact mul_self_eq_zero.mp (by linarith)
    · rintro ⟨rfl, rfl⟩; simp

/-! ### Exercise 2a: initialisation -/

section Init2a

variable {σ Net : Type}

theorem exercise_2a_init_body_frame (L : Libc σ) (i : Nat) (st : InitState σ Net) (j : Nat)
    (h : j ≠ i) : (exercise_2a_particle_init.init_body L i st).swarm j = st.swarm j := by
  simp [exercise_2a_particle_init.init_body, Function.update_noteq h]

/-- A `rand()` result scaled by `RAND_MAX` lies in `[0, 1]`. -/
theorem rand_unit_interval (r M : Nat) (hM : 0 < M) (hr : r ≤ M) :
    0 ≤ (r : ℚ) / (M : ℚ) ∧ (r : ℚ) / (M : ℚ) ≤ 1 := by
  have hM' : (0 : ℚ) < (M : ℚ) := by exact_mod_cast hM
  have hr' : (r : ℚ) ≤ (M : ℚ) := by exact_mod_cast hr
  exact ⟨by positivity, (div_le_one hM').mpr hr'⟩

theorem exercise_2a_init_body_range (L : Libc σ) (hmax : 0 < L.RAND_MAX)
    (hrand : ∀ s, (L.rand s).1 ≤ L.RAND_MAX) (i : Nat) (st : InitState σ Net) :
    InRange2a ((exercise_2a_particle_init.init_body L i st).swarm i) := by
  simp only [exercise_2a_particle_init.init_body, Function.update_same, InRange2a,
    sphere_function]
  obtain ⟨a0, a1⟩ := rand_unit_interval _ _ hmax (hrand st.gen)
  obtain ⟨b0, b1⟩ := rand_unit_interval _ _ hmax (hrand (L.rand st.gen).2)
  obtain ⟨c0, c1⟩ := rand_unit_interval _ _ hmax (hrand (L.rand (L.rand st.gen).2).2)
  obtain ⟨d0, d1⟩ := rand_unit_interval _ _ hmax
    (hrand (L.rand (L.rand (L.rand st.gen).2).2).2)
  refine ⟨⟨?_, ?_⟩, ⟨?_, ?_⟩, ⟨?_, ?_⟩, ⟨?_, ?_⟩, ?_, ?_⟩ <;> norm_num <;>
    first | linarith | nlinarith

end Init2a

section Claims2a

variable {σ Net : Type}

/-- C2: in exercise 2a, when every `rand()` result is at most `RAND_MAX` and
`RAND_MAX > 0`, every particle `i < 6` of the initialised swarm has both
position components in `[-5, 5]`, both velocity components in `[-1, 1]` and
its fitness in `[0, 50]`. -/
theorem exercise_2a_particles_in_range (L : Libc σ) (time_NULL : Nat)
    (swarm : Nat → Particle) (out : List (Event Net)) (hmax : 0 < L.RAND_MAX)
    (hrand : ∀ s, (L.rand s).1 ≤ L.RAND_MAX) (i : Nat) (hi : i < 6) :
    InRange2a ((exercise_2a_particle_init.initialised L time_NULL swarm out).swarm i) :=
  forLoop_array_prop (fun st : InitState σ Net => st.swarm)
    (exercise_2a_particle_init.init_body L) (exercise_2a_init_body_frame L)
    (fun _ p => InRange2a p) (exercise_2a_init_body_range L hmax hrand) 6 0 _ i
    (Nat.zero_le i) (by omega)

theorem sampleLibc_rand_le (s : Nat) : (sampleLibc.rand s).1 ≤ sampleLibc.RAND_MAX := by
  simp only [sampleLibc]
  omega

/-- C2 witness: the sample generator seeded with 1, particle 3. -/
theorem exercise_2a_particles_in_range_witness :
    0 < sampleLibc.RAND_MAX ∧ (∀ s, (sampleLibc.rand s).1 ≤ sampleLibc.RAND_MAX) ∧
    InRange2a ((exercise_2a_particle_init.initialised sampleLibc 1 (fun _ => zeroParticle)
      ([] : List (Event (List Nat)))).swarm 3) :=
  ⟨by decide, sampleLibc_rand_le,
    exercise_2a_particles_in_range sampleLibc 1 (fun _ => zeroParticle) [] (by decide)
      sampleLibc_rand_le 3 (by decide)⟩

end Claims2a

/-! ### Exercise 2a: personal bests and the global best -/

section Best2a

variable {σ Net : Type}

theorem exercise_2a_init_body_consistent (L : Libc σ) (i : Nat) (st : InitState σ Net) :
    Initialised2a i ((exercise_2a_particle_init.init_body L i st).swarm i) := by
  simp [exercise_2a_particle_init.init_body, Function.update_same, Initialised2a]

/-- C4: after the initialisation loop of exercise 2a every particle `i` in
`0..5` has `id = i`, `fitness = sphere_function(position[0], position[1])`,
`best_position` equal to `position` in both components and
`best_fitness = fitness`, so the personal best is not worse than the fitness. -/
theorem exercise_2a_particles_initialised (L : Libc σ) (time_NULL : Nat)
    (swarm : Nat → Particle) (out : List (Event Net)) (i : Nat) (hi : i < 6) :
    Initialised2a i ((exercise_2a_particle_init.initialised L time_NULL swarm out).swarm i) ∧
    ((exercise_2a_particle_init.initialised L time_NULL swarm out).swarm i).best_fitness ≤
      ((exercise_2a_particle_init.initialised L time_NULL swarm out).swarm i).fitness := by
  have h := forLoop_array_prop (fun st : InitState σ Net => st.swarm)
    (exercise_2a_particle_init.init_body L) (exercise_2a_init_body_frame L)
    Initialised2a (exercise_2a_init_body_consistent L) 6 0
    { swarm := swarm
      gen := L.srand time_NULL
      out := out ++ [.printf "Initializing %d particles:\n" [.int ((6 : Nat) : Int)]] } i
    (Nat.zero_le i) (by omega)
  exact ⟨h, le_of_eq h.2.2.2.2⟩

/-- C4 witness: the sample generator seeded with 1, particle 5. -/
theorem exercise_2a_particles_initialised_witness :
    Initialised2a 5 ((exercise_2a_particle_init.initialised sampleLibc 1 (fun _ => zeroParticle)
      ([] : List (Event (List Nat)))).swarm 5) ∧
    ((exercise_2a_particle_init.initialised sampleLibc 1 (fun _ => zeroParticle)
      ([] : List (Event (List Nat)))).swarm 5).best_fitness ≤
    ((exercise_2a_particle_init.initialised sampleLibc 1 (fun _ => zeroParticle)
      ([] : List (Event (List Nat)))).swarm 5).fitness :=
  exercise_2a_particles_initialised sampleLibc 1 (fun _ => zeroParticle) [] 5 (by decide)

/-- The invariant of a "keep the first strictly smaller" scan over `f`:
after the indices below `k`, `b` is the first index with the least value. -/
theorem first_min_scan (f : Nat → ℚ) (n : Nat) :
    FirstArgMin f (1 + n)
      (forLoop (fun i b => if f i < f b then i else b) n 1 0) := by
  refine forLoop_invariant (fun i b => if f i < f b then i else b)
    (fun k b => FirstArgMin f k b) n 1 0 ?_ ?_
  · refine ⟨by omega, fun j hj => ?_, fun j hj => by omega⟩
    have : j = 0 := by omega
    subst this; exact le_rfl
  · rintro k b hk _ ⟨hb, hmin, hfirst⟩
    by_cases hlt : f k < f b
    · simp only [hlt, if_true]
      refine ⟨by omega, fun j hj => ?_, fun j hj => ?_⟩
      · rcases Nat.lt_succ_iff_lt_or_eq.mp hj with h | h
        · exact le_of_lt (lt_of_lt_of_le hlt (hmin j h))
        · subst h; exact le_rfl
      · exact lt_of_lt_of_le hlt (hmin j hj)
    · simp only [hlt, if_false]
      refine ⟨by omega, fun j hj => ?_, hfirst⟩
      rcases Nat.lt_succ_iff_lt_or_eq.mp hj with h | h
      · exact hmin j h
      · subst h; exact not_lt.mp hlt

/-- C3: for every swarm of six particles the "Find global best" loop of
exercise 2a returns an index below 6 whose fitness is at most the fitness of
every particle, and it is the smallest such index: no particle with the same
fitness comes before it. -/
theorem exercise_2a_global_best_is_first_min (swarm : Nat → Particle) :
    exercise_2a_particle_init.find_global_best 6 swarm < 6 ∧
    (∀ j, j < 6 → (swarm (exercise_2a_particle_init.find_global_best 6 swarm)).fitness ≤
      (swarm j).fitness) ∧
    (∀ j, j < 6 → (swarm j).fitness =
        (swarm (exercise_2a_particle_init.find_global_best 6 swarm)).fitness →
      exercise_2a_particle_init.find_global_best 6 swarm ≤ j) := by
  obtain ⟨hb, hmin, hfirst⟩ := first_min_scan (fun i => (swarm i).fitness) 5
  refine ⟨hb, hmin, fun j _ heq => ?_⟩
  by_contra hlt
  have := hfirst j (not_le.mp hlt)
  exact absurd heq (ne_of_gt this)

end Best2a

/-! ### Exercise 1c: the XOR table -/

/-- C5: the XOR table of exercise 1c is correct and complete: in every row
`i < 4` both inputs are 0 or 1 and `expected[i]` is 1 exactly when the two
inputs, read as booleans, differ; and every pair over `{0, 1}` is the input of
exactly one row. -/
theorem exercise_1c_xor_table_correct :
    (∀ i, i < 4 →
      (exercise_1c_xor_problem.inputs i 0 = 0 ∨ exercise_1c_xor_problem.inputs i 0 = 1) ∧
      (exercise_1c_xor_problem.inputs i 1 = 0 ∨ exercise_1c_xor_problem.inputs i 1 = 1) ∧
      exercise_1c_xor_problem.expected i =
        if Bool.xor (decide (exercise_1c_xor_problem.inputs i 0 = 1))
            (decide (exercise_1c_xor_problem.inputs i 1 = 1)) then 1 else 0) ∧
    (∀ a b : Bool, ∃ i, i < 4 ∧
      exercise_1c_xor_problem.inputs i 0 = (if a then 1 else 0) ∧
      exercise_1c_xor_problem.inputs i 1 = (if b then 1 else 0) ∧
      ∀ j, j < 4 → exercise_1c_xor_problem.inputs j 0 = (if a then 1 else 0) →
        exercise_1c_xor_problem.inputs j 1 = (if b then 1 else 0) → j = i) := by
  constructor
  · intro i hi
    interval_cases i <;>
      simp [exercise_1c_xor_problem.inputs, exercise_1c_xor_problem.expected, arrayOf]
  · intro a b
    cases a <;> cases b
    · refine ⟨0, by omega, ?_, ?_, ?_⟩ <;>
        simp [exercise_1c_xor_problem.inputs, arrayOf]
      intro j hj; interval_cases j <;> simp [arrayOf]
    · refine ⟨1, by omega, ?_, ?_, ?_⟩ <;>
        simp [exercise_1c_xor_problem.inputs, arrayOf]
      intro j hj; interval_cases j <;> simp [arrayOf]
    · refine ⟨2, by omega, ?_, ?_, ?_⟩ <;>
        simp [exercise_1c_xor_problem.inputs, arrayOf]
      intro j hj; interval_cases j <;> simp [arrayOf]
    · refine ⟨3, by omega, ?_, ?_, ?_⟩ <;>
        simp [exercise_1c_xor_problem.inputs, arrayOf]
      intro j hj; interval_cases j <;> simp [arrayOf]

/-! ### Exercise 3b: the regression fitness -/

/-- C6: the regression fitness `1.0 / (1.0 + MSE)` of exercise 3b turns
minimisation into maximisation: on non-negative errors a smaller error has a
strictly larger fitness, the fitness lies in `(0, 1]`, and it is 1 exactly
when the error is 0. -/
theorem exercise_3b_regr_fitness_antitone (mse1 mse2 : ℚ) (h1 : 0 ≤ mse1) (_h2 : 0 ≤ mse2) :
    (mse1 < mse2 → exercise_3b_fitness_functions.regr_fitness mse1 >
      exercise_3b_fitness_functions.regr_fitness mse2) ∧
    0 < exercise_3b_fitness_functions.regr_fitness mse1 ∧
    exercise_3b_fitness_functions.regr_fitness mse1 ≤ 1 ∧
    (exercise_3b_fitness_functions.regr_fitness mse1 = 1 ↔ mse1 = 0) := by
  unfold exercise_3b_fitness_functions.regr_fitness
  have e : (1.0 : ℚ) = 1 := by norm_num
  rw [e]
  have p1 : (0 : ℚ) < 1 + mse1 := by linarith
  refine ⟨fun hlt => ?_, by positivity, ?_, ?_⟩
  · have h12 : (1 : ℚ) + mse1 < 1 + mse2 := by linarith
    exact one_div_lt_one_div_of_lt p1 h12
  · rw [div_le_one p1]; linarith
  · rw [div_eq_one_iff_eq (ne_of_gt p1)]
    constructor
    · intro h; linarith
    · intro h; rw [h]; norm_num

/-- C6 witness: the sample error 0.03 of the exercise against the error 1. -/
theorem exercise_3b_regr_fitness_antitone_witness :
    (0 : ℚ) ≤ 0.03 ∧ (0 : ℚ) ≤ 1 ∧
    ((0.03 : ℚ) < 1 → exercise_3b_fitness_functions.regr_fitness 0.03 >
      exercise_3b_fitness_functions.regr_fitness 1) ∧
    0 < exercise_3b_fitness_functions.regr_fitness 0.03 ∧
    exercise_3b_fitness_functions.regr_fitness 0.03 ≤ 1 ∧
    (exercise_3b_fitness_functions.regr_fitness 0.03 = 1 ↔ (0.03 : ℚ) = 0) :=
  ⟨by norm_num, by norm_num,
    exercise_3b_regr_fitness_antitone 0.03 1 (by norm_num) (by norm_num)⟩

/-! ### Exercise 2c: statistics -/

section Repro2c

variable {σ Net : Type}

theorem exercise_2c_initialised_agree (L : Libc σ) (swarm swarm' : Nat → Particle) :
    (exercise_2c_swarm_behavior.initialised L swarm).2 =
      (exercise_2c_swarm_behavior.initialised L swarm').2 ∧
    ∀ i, i < 8 → SameAssigned2c ((exercise_2c_swarm_behavior.initialised L swarm).1 i)
      ((exercise_2c_swarm_behavior.initialised L swarm').1 i) := by
  have key := forLoop_rel
    (fun k (a b : (Nat → Particle) × σ) =>
      a.2 = b.2 ∧ ∀ i, i < k → SameAssigned2c (a.1 i) (b.1 i))
    (exercise_2c_swarm_behavior.init_body L) (exercise_2c_swarm_behavior.init_body L)
    8 0 (swarm, L.srand 42) (swarm', L.srand 42)
    ⟨rfl, fun i hi => by omega⟩
    (by
      rintro k ⟨s, g⟩ ⟨s', g'⟩ - - ⟨hg, hs⟩
      simp only at hg
      subst hg
      refine ⟨by simp [exercise_2c_swarm_behavior.init_body], fun i hi => ?_⟩
      by_cases hik : i = k
      · subst hik
        simp [exercise_2c_swarm_behavior.init_body, SameAssigned2c]
      · have := hs i (by omega)
        simpa [exercise_2c_swarm_behavior.init_body, Function.update_noteq hik] using this)
  exact key

theorem exercise_2c_stats_loop_agree (swarm swarm' : Nat → Particle)
    (h : ∀ i, i < 8 → SameAssigned2c (swarm i) (swarm' i)) :
    exercise_2c_swarm_behavior.stats_loop 8 swarm =
      exercise_2c_swarm_behavior.stats_loop 8 swarm' := by
  unfold exercise_2c_swarm_behavior.stats_loop
  rw [(h 0 (by omega)).2.1]
  refine forLoop_congr _ _ _ _ _ (fun j s _ hj => ?_)
  obtain ⟨hp, hf, -⟩ := h j (by omega)
  simp only [exercise_2c_swarm_behavior.stats_body, hp, hf]

theorem exercise_2c_diversity_agree (L : Libc σ) (swarm swarm' : Nat → Particle)
    (h : ∀ i, i < 8 → SameAssigned2c (swarm i) (swarm' i)) (cx cy : ℚ) :
    exercise_2c_swarm_behavior.diversity L 8 swarm cx cy =
      exercise_2c_swarm_behavior.diversity L 8 swarm' cx cy := by
  unfold exercise_2c_swarm_behavior.diversity
  simp only
  congr 1
  refine forLoop_congr _ _ _ _ _ (fun j s _ hj => ?_)
  obtain ⟨hp, -, -⟩ := h j (by omega)
  simp only [hp]

/-- C8: exercise 2c is reproducible. For every two generator states `g`, `g'`
it is entered in (and whatever the local array held before), the particles'
ids, positions and fitness values, every printed line with its arguments, and
the generator state at exit are the same: `srand(42)` discards the state at
entry before the first `rand()`. -/
theorem exercise_2c_reproducible (L : Libc σ) (swarm swarm' : Nat → Particle) (g g' : σ) :
    (∀ i, i < 8 → SameAssigned2c ((exercise_2c_swarm_behavior.initialised L swarm).1 i)
      ((exercise_2c_swarm_behavior.initialised L swarm').1 i)) ∧
    (exercise_2c_swarm_behavior L swarm g : List (Event Net) × σ) =
      exercise_2c_swarm_behavior L swarm' g' := by
  obtain ⟨hg, hs⟩ := exercise_2c_initialised_agree L swarm swarm'
  refine ⟨hs, ?_⟩
  simp only [exercise_2c_swarm_behavior, exercise_2c_swarm_behavior.statistics]
  rw [exercise_2c_stats_loop_agree _ _ hs, exercise_2c_diversity_agree L _ _ hs, hg]

end Repro2c

/-! ### State shared between the exercises -/

section Shared

variable {σ Net : Type}

end Shared

section SharedClaims

variable {σ Net : Type}

end SharedClaims

/-! ### Exercise 1a: failure of `fann_create_standard` -/

section Failure1a

variable {σ Net : Type}

end Failure1a

/-! ### Array indices -/

section IndexClaims

variable {σ Net : Type}

end IndexClaims

/-! ### The validator of the sandbox and security_examples.c -/

end SampleExercises
